import Mathlib

/-!
Verification of the job-dispatch core of ssbgp-dss-dispatcher.

The development shallowly embeds the persistent store (class `Connection` in
`dss_dispatcher/database.py`, five SQLite tables) and the worker-facing
protocol (class `Dispatcher` in `dss_dispatcher/dispatcher.py`).  Tables are
lists of rows in insertion order; every mutating call returns either the new
store state or the typed error the Python code raises.  Timestamp strings are
lists of character codepoints.
-/

namespace DssDispatcher

/-- Modelled from the spec: the record type `Simulation` lives in
`dss_dispatcher/simulation.py`, which is referenced by every other module but
is not part of the sources at hand.  Field names and order follow the spec
data model and the column order of the `simulation` table used by
`Connection.insert_simulation` (10 columns). -/
structure Simulation where
  id : String
  report_path : String
  topology : String
  destination : Int
  repetitions : Int
  min_delay : Int
  max_delay : Int
  threshold : Int
  stubs_file : String
  seed : Option Int
  deriving DecidableEq, Repr

/-- A wall-clock timestamp with the fields of a Python `datetime` value,
including the sub-second `microsecond` component. -/
structure PyDateTime where
  year : Nat
  month : Nat
  day : Nat
  hour : Nat
  minute : Nat
  second : Nat
  microsecond : Nat
  deriving DecidableEq, Repr, Inhabited

/-- Truncation of a timestamp to whole seconds: the resolution of the storage
format `Connection.DATETIME_FORMAT`. -/
def truncSec (t : PyDateTime) : PyDateTime :=
  { t with microsecond := 0 }

/-- Codepoint of the ASCII digit `d` (for `d < 10`). -/
def digitCode (d : Nat) : Nat := 48 + d

/-- Numeric value of the ASCII digit with codepoint `c`. -/
def digitVal (c : Nat) : Nat := c - 48

/-- Zero-padded two-digit numeral, as codepoints (strftime fields %m %d %H %M %S). -/
def pad2 (n : Nat) : List Nat :=
  [digitCode (n / 10 % 10), digitCode (n % 10)]

/-- Zero-padded four-digit numeral, as codepoints (strftime field %Y). -/
def pad4 (n : Nat) : List Nat :=
  [digitCode (n / 1000 % 10), digitCode (n / 100 % 10),
   digitCode (n / 10 % 10), digitCode (n % 10)]

/-- Rendering of `finish_datetime.strftime(Connection.DATETIME_FORMAT)` with
format string `%Y-%m-%d_%H:%M:%S`; codepoint 45 is the hyphen, 95 the
underscore and 58 the colon.  The `microsecond` field has no directive in the
format, so it is discarded. -/
def strftime (t : PyDateTime) : List Nat :=
  pad4 t.year ++ [45] ++ pad2 t.month ++ [45] ++ pad2 t.day ++ [95] ++
    pad2 t.hour ++ [58] ++ pad2 t.minute ++ [58] ++ pad2 t.second

/-- Parsing of `datetime.strptime(text, Connection.DATETIME_FORMAT)`: the
nineteen-character shape of the format is matched and the six numeric fields
are read back; `%S` is the finest directive, so `microsecond` is 0.  Real
strptime raises on any other shape; only strings produced by `strftime` are
ever parsed here, so the fallback value is never reached on stored rows. -/
def strptime (s : List Nat) : PyDateTime :=
  match s with
  | [y1, y2, y3, y4, _, m1, m2, _, d1, d2, _, h1, h2, _, n1, n2, _, s1, s2] =>
      { year := 1000 * digitVal y1 + 100 * digitVal y2 + 10 * digitVal y3 + digitVal y4,
        month := 10 * digitVal m1 + digitVal m2,
        day := 10 * digitVal d1 + digitVal d2,
        hour := 10 * digitVal h1 + digitVal h2,
        minute := 10 * digitVal n1 + digitVal n2,
        second := 10 * digitVal s1 + digitVal s2,
        microsecond := 0 }
  | _ => default

/-- The five tables of the simulations database, in the layout given by the
spec (section 6) and used by the SQL statements in `database.py`:
`simulator(id)`, `simulation(10 columns)`, `queue(simulation_id, priority)`,
`running(simulator_id, simulation_id)`,
`complete(simulator_id, simulation_id, finish_datetime)`.
Rows are kept in insertion order. -/
structure DB where
  simulator : List String
  simulation : List Simulation
  queue : List (String × Int)
  running : List (String × String)
  complete : List (String × String × List Nat)
  deriving DecidableEq, Repr

/-- IDs present in the `simulation` table. -/
def DB.simulationIds (S : DB) : List String := S.simulation.map Simulation.id

/-- Simulation IDs present in the `queue` table. -/
def DB.queueIds (S : DB) : List String := S.queue.map Prod.fst

/-- Simulation IDs present in the `running` table (second column). -/
def DB.runningIds (S : DB) : List String := S.running.map Prod.snd

/-- Simulation IDs present in the `complete` table (second column). -/
def DB.completeIds (S : DB) : List String := S.complete.map (fun e => e.2.1)

/-- The two typed errors raised by the data layer: `EntryExistsError` for a
violated uniqueness constraint and `EntryNotFoundError` for a violated
foreign-key reference. -/
inductive DBError where
  | entryExists
  | entryNotFound
  deriving DecidableEq, Repr

namespace Connection

/-- Embeds `Connection.insert_simulator`: one INSERT into `simulator`; a
duplicate ID violates the primary key and raises `EntryExistsError`. -/
def insert_simulator (id : String) (S : DB) : Except DBError DB :=
  if id ∈ S.simulator then Except.error DBError.entryExists
  else Except.ok { S with simulator := S.simulator ++ [id] }

/-- Embeds `Connection.insert_simulation`: one INSERT into `simulation`; a
duplicate ID violates the primary key and raises `EntryExistsError`. -/
def insert_simulation (sim : Simulation) (S : DB) : Except DBError DB :=
  if sim.id ∈ S.simulationIds then Except.error DBError.entryExists
  else Except.ok { S with simulation := S.simulation ++ [sim] }

/-- Embeds `Connection.insert_in_queue`: one INSERT into `queue`.  A
simulation already queued violates uniqueness of `simulation_id`
(`EntryExistsError`); a missing simulation violates the foreign key
(`EntryNotFoundError`).  SQLite generates the UNIQUE-constraint checks of
the row insert before the foreign-key checks, so uniqueness is modelled
first: when both are violated the statement aborts with the UNIQUE failure
and the exception handler raises `EntryExistsError`. -/
def insert_in_queue (simulation_id : String) (priority : Int) (S : DB) : Except DBError DB :=
  if simulation_id ∈ S.queueIds then Except.error DBError.entryExists
  else if simulation_id ∉ S.simulationIds then Except.error DBError.entryNotFound
  else Except.ok { S with queue := S.queue ++ [(simulation_id, priority)] }

/-- Embeds `Connection.insert_in_running`: one INSERT into `running`.  A
simulation already running violates uniqueness of `simulation_id`
(`EntryExistsError`); the foreign keys reference both the simulation and the
simulator, and either one missing raises `EntryNotFoundError`.  As in
`insert_in_queue`, SQLite checks uniqueness before the foreign keys, so the
uniqueness check is modelled first. -/
def insert_in_running (simulation_id simulator_id : String) (S : DB) : Except DBError DB :=
  if simulation_id ∈ S.runningIds then Except.error DBError.entryExists
  else if simulation_id ∉ S.simulationIds ∨ simulator_id ∉ S.simulator then
    Except.error DBError.entryNotFound
  else Except.ok { S with running := S.running ++ [(simulator_id, simulation_id)] }

/-- Embeds `Connection.insert_in_complete`: one INSERT into `complete`,
storing `finish_datetime.strftime(DATETIME_FORMAT)`.  Error cases as for
`insert_in_running`, with uniqueness again checked before the foreign
keys. -/
def insert_in_complete (simulation_id simulator_id : String) (finish_datetime : PyDateTime)
    (S : DB) : Except DBError DB :=
  if simulation_id ∈ S.completeIds then Except.error DBError.entryExists
  else if simulation_id ∉ S.simulationIds ∨ simulator_id ∉ S.simulator then
    Except.error DBError.entryNotFound
  else Except.ok
    { S with complete := S.complete ++ [(simulator_id, simulation_id, strftime finish_datetime)] }

/-- Embeds `Connection.delete_from_queue`: DELETE FROM queue WHERE
simulation_id matches; no effect when absent. -/
def delete_from_queue (simulation_id : String) (S : DB) : DB :=
  { S with queue := S.queue.filter (fun e => e.1 != simulation_id) }

/-- Embeds `Connection.delete_from_running`: DELETE FROM running WHERE
simulation_id matches; no effect when absent. -/
def delete_from_running (simulation_id : String) (S : DB) : DB :=
  { S with running := S.running.filter (fun e => e.2 != simulation_id) }

/-- Embeds `Connection.complete_simulations`: the generator joining
`simulation` with `complete` on `id == simulation_id` and parsing each stored
`finish_datetime` string with strptime. -/
def complete_simulations (S : DB) : List (Simulation × String × PyDateTime) :=
  S.complete.filterMap (fun e =>
    (S.simulation.find? (fun s => s.id == e.2.1)).map
      (fun sim => (sim, e.1, strptime e.2.2)))

/-- Embeds `Connection.next_simulation` exactly as it stands in the source:
the method body consists of a docstring only, so every call returns None. -/
def next_simulation_asWritten (_ : DB) : Option Simulation := none

/-- First queue entry holding the maximum priority, so ties break towards the
earliest inserted row. -/
def maxPriorityEntry : List (String × Int) → Option (String × Int)
  | [] => none
  | e :: es =>
    match maxPriorityEntry es with
    | none => some e
    | some m => if e.2 < m.2 then some m else some e

/-- Modelled from the spec: the implementation of `Connection.next_simulation`
is missing from the sources (its body in `database.py` is only a docstring,
while `dispatcher.py` and the test suite call a working version).  Following
the spec, `highestPriorityQueued` returns the queued simulation with the
maximum priority — earliest enqueued on ties — or none on an empty queue. -/
def next_simulation (S : DB) : Option Simulation :=
  match maxPriorityEntry S.queue with
  | none => none
  | some e => S.simulation.find? (fun s => s.id == e.1)

/-- Modelled from the spec: `running_simulation` is called by
`Dispatcher.next_simulation` but is absent from `database.py` in the sources.
Following the spec, `runningJobFor(workerId)` returns the simulation currently
assigned to the given simulator, or none. -/
def running_simulation (simulator_id : String) (S : DB) : Option Simulation :=
  (S.running.find? (fun e => e.1 == simulator_id)).bind
    (fun e => S.simulation.find? (fun s => s.id == e.2))

end Connection

/-- The error raised by the generic handler of `Dispatcher.next_simulation`:
`OperationError`, wrapping any unexpected exception after rolling back. -/
inductive DispatchError where
  | operationError
  deriving DecidableEq, Repr

namespace Dispatcher

/-- Embeds the body of the while loop of `Dispatcher.register`: try the
candidate IDs `gen k, gen (k+1), ...` in turn, retrying on
`EntryExistsError`.  The source loop has no attempt cap; `fuel` bounds the
recursion of the model, and `none` means the loop is still running after
`fuel` iterations. -/
def registerLoop (gen : Nat → String) (S : DB) : Nat → Nat → Option (String × DB)
  | _, 0 => none
  | k, fuel + 1 =>
    match Connection.insert_simulator (gen k) S with
    | Except.ok S' => some (gen k, S')
    | Except.error _ => registerLoop gen S (k + 1) fuel

/-- Embeds `Dispatcher.register`.  The uuid4 generator is an oracle
parameter `gen`, and `fuel` bounds the unbounded source loop as in
`registerLoop`. -/
def register (gen : Nat → String) (fuel : Nat) (S : DB) : Option (String × DB) :=
  registerLoop gen S 0 fuel

/-- Embeds `Dispatcher.next_simulation`.  The returned pair is the response
and the store state after the call (the connection context manager commits on
normal return; `db.rollback()` in the generic handler restores the entry
state on any exception).  The two error branches reflect the source: when no
simulation is selected, the final log statement evaluates `simulation.id`
with `simulation = None`, raising AttributeError, which the generic handler
turns into `OperationError` after rolling back; an unexpected
`EntryExistsError` from the insert reaches the same handler. -/
def next_simulation (simulator_id : String) (S : DB) : Except DispatchError Simulation × DB :=
  match Connection.running_simulation simulator_id S with
  | some sim => (Except.ok sim, S)
  | none =>
    match Connection.next_simulation S with
    | none => (Except.error DispatchError.operationError, S)
    | some sim =>
      match Connection.insert_in_running sim.id simulator_id S with
      | Except.error DBError.entryNotFound =>
          (Except.error DispatchError.operationError, S)
      | Except.error DBError.entryExists =>
          (Except.error DispatchError.operationError, S)
      | Except.ok S1 => (Except.ok sim, Connection.delete_from_queue sim.id S1)

/-- Embeds `Dispatcher.notify_finished`: delete the simulation from `running`,
then insert it into `complete` with the current time.  There is no handler in
this method; a typed data-layer error propagates to the caller unchanged,
and the connection context manager rolls the store back to the entry state. -/
def notify_finished (simulator_id simulation_id : String) (now : PyDateTime) (S : DB) :
    Except DBError Unit × DB :=
  match Connection.insert_in_complete simulation_id simulator_id now
      (Connection.delete_from_running simulation_id S) with
  | Except.ok S2 => (Except.ok (), S2)
  | Except.error e => (Except.error e, S)

end Dispatcher

/-- The core invariant of the spec data model: every simulation ID lies in at
most one of the queue, running and complete tables. -/
def Inv (S : DB) : Prop :=
  (∀ a ∈ S.queueIds, a ∉ S.runningIds) ∧
    (∀ a ∈ S.queueIds, a ∉ S.completeIds) ∧
      (∀ a ∈ S.runningIds, a ∉ S.completeIds)

/-- The simulation record built by `create_simulation` in the test suite of
the repository: fixed parameters around a chosen ID. -/
def testSimulation (id : String) : Simulation :=
  { id := id, report_path := "reports", topology := "topology.nf", destination := 0,
    repetitions := 1, min_delay := 1, max_delay := 1, threshold := 1,
    stubs_file := "topology.stubs", seed := some 1234 }

/-- A fixed sub-second-free timestamp, as used by the test suite. -/
def t0 : PyDateTime :=
  { year := 1900, month := 1, day := 1, hour := 1, minute := 1, second := 0, microsecond := 0 }

/-- The store built by the queue-priority test of the repository: simulations
1, 2, 3 queued with priorities 10, 30 and 1. -/
def scenarioC1 : DB :=
  { simulator := ["#sim1"],
    simulation := [testSimulation "#1", testSimulation "#2", testSimulation "#3"],
    queue := [("#1", 10), ("#2", 30), ("#3", 1)],
    running := [],
    complete := [] }

/-- Store with a registered simulator and an empty queue. -/
def scenarioEmptyQueue : DB :=
  { simulator := ["#sim1"], simulation := [], queue := [], running := [], complete := [] }

/-- Store with one queued simulation but no registered simulator. -/
def scenarioNoWorker : DB :=
  { simulator := [], simulation := [testSimulation "#1"], queue := [("#1", 10)],
    running := [], complete := [] }

/-- Store with two registered simulators and exactly one queued simulation. -/
def scenarioOneJob : DB :=
  { simulator := ["#w1", "#w2"], simulation := [testSimulation "#1"],
    queue := [("#1", 10)], running := [], complete := [] }

/-- The store of `scenarioOneJob` after the queued simulation is assigned to
simulator `#w1`. -/
def scenarioOneJobAssigned : DB :=
  { simulator := ["#w1", "#w2"], simulation := [testSimulation "#1"],
    queue := [], running := [("#w1", "#1")], complete := [] }

/-- C1: on the store of the queue-priority test of the repository (jobs 1, 2,
3 queued with priorities 10, 30, 1), `Connection.next_simulation` as written
in the source returns none — its body is only a docstring — while the
spec-modelled `highestPriorityQueued` returns job 2, the outcome the
docstring, the spec and the repository test
`test_NextSimulation_QueueContainsSimsWithPriority1and10and30_ReturnsSim30`
all require. -/
theorem c1_next_simulation_stub_contradicts_test :
    Connection.next_simulation_asWritten scenarioC1 = none ∧
      Connection.next_simulation scenarioC1 = some (testSimulation "#2") :=
  ⟨rfl, rfl⟩

/-- C4: on an empty queue, `Dispatcher.next_simulation` does not return none:
the final log statement evaluates `simulation.id` with `simulation = None`,
raising AttributeError, which the generic handler re-raises as
`OperationError` after rolling back; the same happens in the unregistered-
worker branch, where the EntryNotFoundError handler resets `simulation` to
None before the same log statement runs.  The store is left unchanged in both
cases, but the call errors instead of returning none. -/
theorem c4_requestJob_raises_instead_of_none :
    Dispatcher.next_simulation "#sim1" scenarioEmptyQueue =
        (Except.error DispatchError.operationError, scenarioEmptyQueue) ∧
      Dispatcher.next_simulation "#w" scenarioNoWorker =
        (Except.error DispatchError.operationError, scenarioNoWorker) :=
  ⟨rfl, rfl⟩

/-- C5: serialized race for the single queued job.  The first requester is
assigned job 1 and the job is never handed out twice, but the second
requester does not receive none: it hits the `simulation.id` log statement
with `simulation = None` and gets `OperationError`. -/
theorem c5_one_job_second_caller_errors :
    Dispatcher.next_simulation "#w1" scenarioOneJob =
        (Except.ok (testSimulation "#1"), scenarioOneJobAssigned) ∧
      Dispatcher.next_simulation "#w2" scenarioOneJobAssigned =
        (Except.error DispatchError.operationError, scenarioOneJobAssigned) :=
  ⟨rfl, rfl⟩

/-- Store in which simulator `#sim1` is currently running simulation 1. -/
def scenarioRunning : DB :=
  { simulator := ["#sim1"], simulation := [testSimulation "#1"], queue := [],
    running := [("#sim1", "#1")], complete := [] }

/-- The store of `scenarioRunning` after simulation 1 is reported finished at
time `t0`. -/
def scenarioRunningDone : DB :=
  { simulator := ["#sim1"], simulation := [testSimulation "#1"], queue := [],
    running := [], complete := [("#sim1", "#1", strftime t0)] }

/-- C3: idempotent re-query.  When the simulator already holds a running
simulation, `Dispatcher.next_simulation` returns exactly that simulation and
leaves the store unchanged, so any number of repeated calls without an
intervening completion report return the identical simulation. -/
theorem c3_idempotent_requery (simulator_id : String) (S : DB) (sim : Simulation)
    (h : Connection.running_simulation simulator_id S = some sim) :
    Dispatcher.next_simulation simulator_id S = (Except.ok sim, S) := by
  simp [Dispatcher.next_simulation, h]

/-- Witness for C3: simulator `#sim1` holds simulation 1 and gets it back
with the store unchanged. -/
theorem c3_idempotent_requery_witness :
    Connection.running_simulation "#sim1" scenarioRunning = some (testSimulation "#1") ∧
      Dispatcher.next_simulation "#sim1" scenarioRunning =
        (Except.ok (testSimulation "#1"), scenarioRunning) :=
  ⟨rfl, c3_idempotent_requery "#sim1" scenarioRunning (testSimulation "#1") rfl⟩

/-- C6: when `Dispatcher.notify_finished` succeeds for a simulation running
under the given simulator, the complete table of the resulting store contains
the simulation together with that simulator and the formatted finish
timestamp, and the running table no longer contains the simulation. -/
theorem c6_notify_finished_completes (simulator_id simulation_id : String)
    (now : PyDateTime) (S S' : DB)
    (_hrun : (simulator_id, simulation_id) ∈ S.running)
    (h : Dispatcher.notify_finished simulator_id simulation_id now S = (Except.ok (), S')) :
    (simulator_id, simulation_id, strftime now) ∈ S'.complete ∧
      simulation_id ∉ S'.runningIds := by
  rw [Dispatcher.notify_finished] at h
  rcases hins : Connection.insert_in_complete simulation_id simulator_id now
      (Connection.delete_from_running simulation_id S) with e | S2
  · rw [hins] at h
    simp at h
  · rw [hins] at h
    simp only [Prod.mk.injEq] at h
    obtain ⟨-, rfl⟩ := h
    rw [Connection.insert_in_complete] at hins
    split at hins
    · cases hins
    · split at hins
      · cases hins
      · injection hins with hS2
        subst hS2
        constructor
        · simp [Connection.delete_from_running]
        · intro hmem
          simp only [DB.runningIds, Connection.delete_from_running] at hmem
          obtain ⟨x, hx, hxeq⟩ := List.mem_map.mp hmem
          have hf := (List.mem_filter.mp hx).2
          rw [hxeq] at hf
          simp at hf

/-- Witness for C6: reporting simulation 1 finished in `scenarioRunning`
moves it from running to complete with the formatted timestamp. -/
theorem c6_notify_finished_completes_witness :
    ("#sim1", "#1", strftime t0) ∈ scenarioRunningDone.complete ∧
      "#1" ∉ scenarioRunningDone.runningIds :=
  c6_notify_finished_completes "#sim1" "#1" t0 scenarioRunning scenarioRunningDone
    (by decide) rfl

/-- C7 counterexample: in a reachable store where simulation 1 is already
running under registered simulator `#sim1`, inserting it into `running` for
the unregistered simulator `#ghost` violates both UNIQUE(simulation_id) and
the simulator foreign key; SQLite aborts on the UNIQUE violation first, so
the call raises `EntryExistsError` — not the `EntryNotFoundError` the claim
requires for every store whose worker is unregistered. -/
theorem c7_counterexample_unique_before_fk :
    "#ghost" ∉ scenarioRunning.simulator ∧
      Connection.insert_in_running "#1" "#ghost" scenarioRunning =
        Except.error DBError.entryExists :=
  ⟨by decide, rfl⟩

/-- C7 (amended): the error conditions of the data layer, with the provisos
the UNIQUE-before-foreign-key check order of SQLite forces.  Inserting a
simulation whose ID is already in the `simulation` table raises
`EntryExistsError` unconditionally; queueing a simulation that was never
inserted raises `EntryNotFoundError` provided the ID is not already queued;
inserting into `running` for an unregistered simulator raises
`EntryNotFoundError` provided the simulation is not already running — when
the target table already holds the ID, the UNIQUE violation fires first and
the error is `EntryExistsError` instead. -/
theorem c7_amended_insert_error_conditions (S : DB) (sim : Simulation) (sid wid : String)
    (p : Int) :
    (sim.id ∈ S.simulationIds →
        Connection.insert_simulation sim S = Except.error DBError.entryExists) ∧
      (sid ∉ S.simulationIds → sid ∉ S.queueIds →
        Connection.insert_in_queue sid p S = Except.error DBError.entryNotFound) ∧
      (wid ∉ S.simulator → sid ∉ S.runningIds →
        Connection.insert_in_running sid wid S = Except.error DBError.entryNotFound) := by
  refine ⟨fun h => ?_, fun h hq => ?_, fun h hr => ?_⟩
  · simp [Connection.insert_simulation, h]
  · simp [Connection.insert_in_queue, h, hq]
  · simp [Connection.insert_in_running, h, hr]

/-- Witness for C7 (amended) on concrete stores: a duplicate of job 1 in the
store of the queue test, a never-inserted ID enqueued, and an assignment of
the not-yet-running job 1 to an unregistered simulator. -/
theorem c7_amended_insert_error_conditions_witness :
    Connection.insert_simulation (testSimulation "#1") scenarioC1 =
        Except.error DBError.entryExists ∧
      Connection.insert_in_queue "#none" 5 scenarioC1 = Except.error DBError.entryNotFound ∧
      Connection.insert_in_running "#1" "#ghost" scenarioC1 =
        Except.error DBError.entryNotFound :=
  ⟨(c7_amended_insert_error_conditions scenarioC1 (testSimulation "#1") "#none" "#ghost" 5).1
      (by decide),
    (c7_amended_insert_error_conditions scenarioC1 (testSimulation "#1") "#none" "#ghost" 5).2.1
      (by decide) (by decide),
    (c7_amended_insert_error_conditions scenarioC1 (testSimulation "#1") "#1" "#ghost" 5).2.2
      (by decide) (by decide)⟩

/-- C8 counterexample: reporting completion of a simulation that does not
exist surfaces the internal typed error `EntryNotFoundError` to the caller,
not a generic operational error — `Dispatcher.notify_finished` has no
handler converting data-layer errors into `OperationError`. -/
theorem c8_counterexample_typed_error_escapes :
    Dispatcher.notify_finished "#sim1" "#1" t0 scenarioEmptyQueue =
      (Except.error DBError.entryNotFound, scenarioEmptyQueue) :=
  rfl

/-- C8 (amended): every failure of `Dispatcher.notify_finished` aborts the
attempted transition — the connection context manager rolls the store back
to the entry state — but the failure propagates to the caller as the
underlying typed data-layer error, with no operational-error wrapping. -/
theorem c8_amended_failure_rolls_back_typed (simulator_id simulation_id : String)
    (now : PyDateTime) (S : DB) (e : DBError)
    (h : (Dispatcher.notify_finished simulator_id simulation_id now S).1 = Except.error e) :
    Dispatcher.notify_finished simulator_id simulation_id now S = (Except.error e, S) := by
  rw [Dispatcher.notify_finished] at h ⊢
  rcases hins : Connection.insert_in_complete simulation_id simulator_id now
      (Connection.delete_from_running simulation_id S) with e' | S2
  · rw [hins] at h
    simp only [Except.error.injEq] at h
    subst h
    rfl
  · rw [hins] at h
    simp at h

/-- Witness for C8 (amended): the missing-simulation failure propagates as
`EntryNotFoundError` and leaves the store unchanged. -/
theorem c8_amended_witness :
    Dispatcher.notify_finished "#ghost" "#none" t0 scenarioRunning =
      (Except.error DBError.entryNotFound, scenarioRunning) :=
  c8_amended_failure_rolls_back_typed "#ghost" "#none" t0 scenarioRunning
    DBError.entryNotFound rfl

/-- Generator that yields the already-registered ID `#sim1` forever, the
persistent-collision oracle for the register loop. -/
def collidingGen : Nat → String := fun _ => "#sim1"

/-- Stepping the register loop once under a persistent collision consumes one
unit of fuel without producing a result. -/
theorem registerLoop_colliding (n : Nat) :
    ∀ k, Dispatcher.registerLoop collidingGen scenarioEmptyQueue k n = none := by
  induction n with
  | zero => intro k; rfl
  | succ n ih =>
      intro k
      rw [show Dispatcher.registerLoop collidingGen scenarioEmptyQueue k (n + 1) =
        Dispatcher.registerLoop collidingGen scenarioEmptyQueue (k + 1) n from rfl]
      exact ih (k + 1)

/-- C9 counterexample: the register loop of the source has no attempt cap.
Under persistent ID collisions the loop is still running after a million
generate-then-insert attempts, neither returning nor raising a detectable
fault. -/
theorem c9_counterexample_register_uncapped :
    Dispatcher.register collidingGen 1000000 scenarioEmptyQueue = none :=
  registerLoop_colliding 1000000 0

/-- Register loop success: if some candidate ID in the attempt window is not
yet registered, the loop returns a generated ID that was fresh and inserts
exactly it into the simulator table. -/
theorem registerLoop_success (gen : Nat → String) (S : DB) :
    ∀ n k, (∃ i, k ≤ i ∧ i < k + n ∧ gen i ∉ S.simulator) →
      ∃ j S', Dispatcher.registerLoop gen S k n = some (gen j, S') ∧
        gen j ∉ S.simulator ∧ S' = { S with simulator := S.simulator ++ [gen j] } := by
  intro n
  induction n with
  | zero =>
      rintro k ⟨i, h1, h2, -⟩
      omega
  | succ n ih =>
      rintro k ⟨i, h1, h2, h3⟩
      by_cases hk : gen k ∈ S.simulator
      · have hstep : Dispatcher.registerLoop gen S k (n + 1) =
            Dispatcher.registerLoop gen S (k + 1) n := by
          simp [Dispatcher.registerLoop, Connection.insert_simulator, hk]
        rw [hstep]
        apply ih
        have hne : i ≠ k := by
          rintro rfl
          exact h3 hk
        exact ⟨i, by omega, by omega, h3⟩
      · refine ⟨k, { S with simulator := S.simulator ++ [gen k] }, ?_, hk, rfl⟩
        simp [Dispatcher.registerLoop, Connection.insert_simulator, hk]

/-- C9 (amended): `Dispatcher.register` has no attempt cap; the loop
terminates exactly when the ID generator first yields an unregistered ID, and
then returns a generated ID that was fresh, inserting it — and nothing
else — into the simulator table. -/
theorem c9_amended_register_returns_fresh (gen : Nat → String) (S : DB) (n i : Nat)
    (hin : i < n) (hfresh : gen i ∉ S.simulator) :
    ∃ j S', Dispatcher.register gen n S = some (gen j, S') ∧
      gen j ∉ S.simulator ∧ S'.simulator = S.simulator ++ [gen j] ∧
      S'.simulation = S.simulation ∧ S'.queue = S.queue ∧
      S'.running = S.running ∧ S'.complete = S.complete := by
  obtain ⟨j, S', hloop, hf, hS'⟩ :=
    registerLoop_success gen S n 0 ⟨i, Nat.zero_le i, by omega, hfresh⟩
  subst hS'
  exact ⟨j, _, hloop, hf, rfl, rfl, rfl, rfl, rfl⟩

/-- Generator whose first candidate collides with the registered `#sim1` and
whose second candidate is fresh. -/
def freshGen : Nat → String := fun n => if n = 0 then "#sim1" else "#sim2"

/-- Witness for C9 (amended): with fuel 2, the loop skips the colliding first
candidate and registers the fresh second one. -/
theorem c9_amended_witness :
    ∃ j S', Dispatcher.register freshGen 2 scenarioEmptyQueue = some (freshGen j, S') ∧
      freshGen j ∉ scenarioEmptyQueue.simulator ∧
      S'.simulator = scenarioEmptyQueue.simulator ++ [freshGen j] ∧
      S'.simulation = scenarioEmptyQueue.simulation ∧ S'.queue = scenarioEmptyQueue.queue ∧
      S'.running = scenarioEmptyQueue.running ∧ S'.complete = scenarioEmptyQueue.complete :=
  c9_amended_register_returns_fresh freshGen scenarioEmptyQueue 2 1 (by omega) (by decide)

/-- Successful `insert_simulator` appends the ID and changes nothing else. -/
theorem insert_simulator_ok (id : String) (S S' : DB)
    (h : Connection.insert_simulator id S = Except.ok S') :
    S' = { S with simulator := S.simulator ++ [id] } := by
  rw [Connection.insert_simulator] at h
  split at h
  · cases h
  · injection h with h'
    exact h'.symm

/-- Successful `insert_in_running` passed both constraint checks and appends
exactly one row to the running table. -/
theorem insert_in_running_ok (sid wid : String) (S S' : DB)
    (h : Connection.insert_in_running sid wid S = Except.ok S') :
    sid ∈ S.simulationIds ∧ wid ∈ S.simulator ∧ sid ∉ S.runningIds ∧
      S' = { S with running := S.running ++ [(wid, sid)] } := by
  rw [Connection.insert_in_running] at h
  split at h
  · cases h
  next hmem =>
    split at h
    · cases h
    next hcond =>
      push_neg at hcond
      injection h with h'
      exact ⟨hcond.1, hcond.2, hmem, h'.symm⟩

/-- Successful `insert_in_complete` passed both constraint checks and appends
exactly one row, holding the formatted timestamp, to the complete table. -/
theorem insert_in_complete_ok (sid wid : String) (t : PyDateTime) (S S' : DB)
    (h : Connection.insert_in_complete sid wid t S = Except.ok S') :
    sid ∈ S.simulationIds ∧ wid ∈ S.simulator ∧ sid ∉ S.completeIds ∧
      S' = { S with complete := S.complete ++ [(wid, sid, strftime t)] } := by
  rw [Connection.insert_in_complete] at h
  split at h
  · cases h
  next hmem =>
    split at h
    · cases h
    next hcond =>
      push_neg at hcond
      injection h with h'
      exact ⟨hcond.1, hcond.2, hmem, h'.symm⟩

/-- A result of `maxPriorityEntry` is an entry of the list. -/
theorem maxPriorityEntry_mem (l : List (String × Int)) (e : String × Int)
    (h : Connection.maxPriorityEntry l = some e) : e ∈ l := by
  induction l generalizing e with
  | nil => cases h
  | cons x xs ih =>
      unfold Connection.maxPriorityEntry at h
      split at h
      · injection h with h'
        subst h'
        exact List.mem_cons_self x xs
      · rename_i m hm
        split at h
        · injection h with h'
          subst h'
          exact List.mem_cons_of_mem x (ih m hm)
        · injection h with h'
          subst h'
          exact List.mem_cons_self x xs

/-- A simulation selected from the queue has its ID in the queue table. -/
theorem next_simulation_queued (S : DB) (sim : Simulation)
    (h : Connection.next_simulation S = some sim) :
    sim.id ∈ S.queueIds := by
  rw [Connection.next_simulation] at h
  rcases hm : Connection.maxPriorityEntry S.queue with _ | e
  · rw [hm] at h
    cases h
  · rw [hm] at h
    have hfind : S.simulation.find? (fun s => s.id == e.1) = some sim := h
    have hid : sim.id = e.1 := by simpa using List.find?_some hfind
    rw [hid, DB.queueIds]
    exact List.mem_map.mpr ⟨e, maxPriorityEntry_mem _ _ hm, rfl⟩

/-- Queue membership after `delete_from_queue`: the original members other
than the deleted ID. -/
theorem mem_queueIds_delete (sid : String) (T : DB) (a : String) :
    a ∈ (Connection.delete_from_queue sid T).queueIds ↔ a ∈ T.queueIds ∧ a ≠ sid := by
  simp only [Connection.delete_from_queue, DB.queueIds, List.mem_map, List.mem_filter,
    bne_iff_ne]
  constructor
  · rintro ⟨x, ⟨hx, hne⟩, rfl⟩
    exact ⟨⟨x, hx, rfl⟩, hne⟩
  · rintro ⟨⟨x, hx, rfl⟩, hne⟩
    exact ⟨x, ⟨hx, hne⟩, rfl⟩

/-- The register loop only ever touches the simulator table: the queue,
running and complete tables of a successful result state are those of the
entry state. -/
theorem registerLoop_tables (gen : Nat → String) (S : DB) :
    ∀ n k id S', Dispatcher.registerLoop gen S k n = some (id, S') →
      S'.queue = S.queue ∧ S'.running = S.running ∧ S'.complete = S.complete := by
  intro n
  induction n with
  | zero =>
      intro k id S' h
      cases h
  | succ n ih =>
      intro k id S' h
      rw [Dispatcher.registerLoop] at h
      rcases hins : Connection.insert_simulator (gen k) S with e | S1
      · rw [hins] at h
        exact ih (k + 1) id S' h
      · rw [hins] at h
        have h' : some (gen k, S1) = some (id, S') := h
        injection h' with h''
        injection h'' with hid hS
        subst hS
        have hS1 := insert_simulator_ok (gen k) S S1 hins
        subst hS1
        exact ⟨rfl, rfl, rfl⟩

/-- C2 counterexample: from a reachable store in which simulation 1 is
queued — so the core invariant holds — `Dispatcher.notify_finished`
succeeds for that queued (never assigned) simulation and leaves it in the
queue and the complete table at once: the dispatcher never checks that the
reported simulation is actually running. -/
theorem c2_counterexample_finish_queued_job :
    Inv scenarioOneJob ∧
      (Dispatcher.notify_finished "#w1" "#1" t0 scenarioOneJob).1 = Except.ok () ∧
      "#1" ∈ (Dispatcher.notify_finished "#w1" "#1" t0 scenarioOneJob).2.queueIds ∧
      "#1" ∈ (Dispatcher.notify_finished "#w1" "#1" t0 scenarioOneJob).2.completeIds := by
  refine ⟨by unfold Inv; decide, rfl, by decide, by decide⟩

/-- C2 (amended): the lifecycle invariant — every simulation ID in at most
one of queue, running and complete — is preserved by `Dispatcher.register`
and by `Dispatcher.next_simulation` unconditionally, and by
`Dispatcher.notify_finished` for every simulation that is not currently
queued; the counterexample shows the queued case is a real exception. -/
theorem c2_amended_invariant_preserved (S : DB) (hS : Inv S) :
    (∀ gen n id S', Dispatcher.register gen n S = some (id, S') → Inv S') ∧
      (∀ wid, Inv (Dispatcher.next_simulation wid S).2) ∧
      (∀ wid sid now, sid ∉ S.queueIds →
        Inv (Dispatcher.notify_finished wid sid now S).2) := by
  obtain ⟨h1, h2, h3⟩ := hS
  refine ⟨?_, ?_, ?_⟩
  · rintro gen n id S' h
    obtain ⟨hq, hr, hc⟩ := registerLoop_tables gen S n 0 id S' h
    refine ⟨?_, ?_, ?_⟩ <;>
      simp only [DB.queueIds, DB.runningIds, DB.completeIds, hq, hr, hc]
    · exact h1
    · exact h2
    · exact h3
  · intro wid
    unfold Dispatcher.next_simulation
    split
    · exact ⟨h1, h2, h3⟩
    · split
      · exact ⟨h1, h2, h3⟩
      · rename_i sim hnext
        split
        · exact ⟨h1, h2, h3⟩
        · exact ⟨h1, h2, h3⟩
        · rename_i S1 hins
          obtain ⟨hsid, hwid, hnotrun, hS1⟩ := insert_in_running_ok _ _ _ _ hins
          subst hS1
          have hqmem : sim.id ∈ S.queueIds := next_simulation_queued S sim hnext
          show Inv (Connection.delete_from_queue sim.id
            { S with running := S.running ++ [(wid, sim.id)] })
          refine ⟨?_, ?_, ?_⟩
          · intro a ha hmem
            rw [mem_queueIds_delete] at ha
            have haS : a ∈ S.queueIds := ha.1
            have hmem2 : a ∈ S.runningIds ∨ a = sim.id := by
              simpa [DB.runningIds, Connection.delete_from_queue] using hmem
            rcases hmem2 with hin | rfl
            · exact h1 a haS hin
            · exact ha.2 rfl
          · intro a ha hmem
            rw [mem_queueIds_delete] at ha
            have haS : a ∈ S.queueIds := ha.1
            have hmem2 : a ∈ S.completeIds := hmem
            exact h2 a haS hmem2
          · intro a ha hmem
            have hmem2 : a ∈ S.completeIds := hmem
            have ha2 : a ∈ S.runningIds ∨ a = sim.id := by
              simpa [DB.runningIds, Connection.delete_from_queue] using ha
            rcases ha2 with hin | rfl
            · exact h3 a hin hmem2
            · exact h2 sim.id hqmem hmem2
  · intro wid sid now hnq
    rw [Dispatcher.notify_finished]
    rcases hins : Connection.insert_in_complete sid wid now
        (Connection.delete_from_running sid S) with e | S2
    · exact ⟨h1, h2, h3⟩
    · obtain ⟨hins1, hins2, hnc, hS2⟩ := insert_in_complete_ok _ _ _ _ _ hins
      subst hS2
      show Inv { Connection.delete_from_running sid S with
        complete := (Connection.delete_from_running sid S).complete ++
          [(wid, sid, strftime now)] }
      refine ⟨?_, ?_, ?_⟩
      · intro a ha hmem
        have haS : a ∈ S.queueIds := ha
        have hmem2 : a ∈ S.runningIds ∧ a ≠ sid := by
          simp only [DB.runningIds, Connection.delete_from_running, List.mem_map,
            List.mem_filter, bne_iff_ne] at hmem
          obtain ⟨x, ⟨hx, hne⟩, rfl⟩ := hmem
          exact ⟨List.mem_map.mpr ⟨x, hx, rfl⟩, hne⟩
        exact h1 a haS hmem2.1
      · intro a ha hmem
        have haS : a ∈ S.queueIds := ha
        have hmem2 : a ∈ S.completeIds ∨ a = sid := by
          simpa [DB.completeIds, Connection.delete_from_running] using hmem
        rcases hmem2 with hin | rfl
        · exact h2 a haS hin
        · exact hnq haS
      · intro a ha hmem
        have ha2 : a ∈ S.runningIds ∧ a ≠ sid := by
          simp only [DB.runningIds, Connection.delete_from_running, List.mem_map,
            List.mem_filter, bne_iff_ne] at ha
          obtain ⟨x, ⟨hx, hne⟩, rfl⟩ := ha
          exact ⟨List.mem_map.mpr ⟨x, hx, rfl⟩, hne⟩
        have hmem2 : a ∈ S.completeIds ∨ a = sid := by
          simpa [DB.completeIds, Connection.delete_from_running] using hmem
        rcases hmem2 with hin | rfl
        · exact h3 a ha2.1 hin
        · exact ha2.2 rfl

/-- Witness for C2 (amended): the invariant holds in the one-job store and is
preserved by an assignment request and by a completion report for a
simulation that is not queued. -/
theorem c2_amended_witness :
    Inv scenarioOneJob ∧ Inv (Dispatcher.next_simulation "#w1" scenarioOneJob).2 ∧
      Inv (Dispatcher.notify_finished "#w1" "#none" t0 scenarioOneJob).2 :=
  ⟨by unfold Inv; decide,
    (c2_amended_invariant_preserved scenarioOneJob (by unfold Inv; decide)).2.1 "#w1",
    (c2_amended_invariant_preserved scenarioOneJob (by unfold Inv; decide)).2.2
      "#w1" "#none" t0 (by decide)⟩

/-- Round trip of the storage format: parsing a formatted timestamp returns
the timestamp truncated to whole seconds, for every timestamp whose fields
fit the fixed-width directives of `%Y-%m-%d_%H:%M:%S`. -/
theorem strptime_strftime (t : PyDateTime) (hy : t.year < 10000) (hmo : t.month < 100)
    (hd : t.day < 100) (hh : t.hour < 100) (hmi : t.minute < 100) (hs : t.second < 100) :
    strptime (strftime t) = truncSec t := by
  simp only [strftime, pad4, pad2, List.cons_append, List.nil_append]
  simp only [strptime, digitVal, digitCode, truncSec]
  refine PyDateTime.mk.injEq .. ▸ ?_
  refine ⟨?_, ?_, ?_, ?_, ?_, ?_, rfl⟩ <;> omega

/-- A timestamp carrying a sub-second component, for the round-trip witness. -/
def c10time : PyDateTime :=
  { year := 2017, month := 11, day := 23, hour := 9, minute := 5, second := 59,
    microsecond := 123456 }

/-- The store of `scenarioRunning` after simulation 1 is inserted into the
complete table at time `c10time`. -/
def scenarioAfterComplete : DB :=
  { simulator := ["#sim1"], simulation := [testSimulation "#1"], queue := [],
    running := [("#sim1", "#1")], complete := [("#sim1", "#1", strftime c10time)] }

/-- C10: storing a completion via `insert_in_complete` and enumerating
`complete_simulations` yields the simulation, the simulator and the finish
time truncated to whole seconds: the timestamp round-trips through the fixed
storage string at second resolution, discarding any sub-second component. -/
theorem c10_finish_time_roundtrips (S S' : DB) (sim : Simulation) (wid : String)
    (t : PyDateTime)
    (hfind : S.simulation.find? (fun s => s.id == sim.id) = some sim)
    (hok : Connection.insert_in_complete sim.id wid t S = Except.ok S')
    (hy : t.year < 10000) (hmo : t.month < 100) (hd : t.day < 100)
    (hh : t.hour < 100) (hmi : t.minute < 100) (hs : t.second < 100) :
    (sim, wid, truncSec t) ∈ Connection.complete_simulations S' := by
  obtain ⟨-, -, -, hS'⟩ := insert_in_complete_ok _ _ _ _ _ hok
  subst hS'
  rw [Connection.complete_simulations]
  apply List.mem_filterMap.mpr
  refine ⟨(wid, sim.id, strftime t), by simp, ?_⟩
  have hfind' : S.simulation.find? (fun s => s.id == (wid, sim.id, strftime t).2.1) =
      some sim := hfind
  rw [hfind']
  simp [strptime_strftime t hy hmo hd hh hmi hs]

/-- Witness for C10: completing simulation 1 at a time carrying 123456
microseconds stores and returns the time with the microseconds discarded. -/
theorem c10_finish_time_roundtrips_witness :
    (testSimulation "#1", "#sim1", truncSec c10time) ∈
      Connection.complete_simulations scenarioAfterComplete :=
  c10_finish_time_roundtrips scenarioRunning scenarioAfterComplete (testSimulation "#1")
    "#sim1" c10time rfl rfl (by decide) (by decide) (by decide) (by decide) (by decide)
    (by decide)

end DssDispatcher
